import Mathlib

/-!
Shallow embedding of the pid-autotune simulation core:
the thermal model (`kettle.py`) and the simulation driver (`sim.py`).

Python floats are modelled as exact rationals (`ℚ`); the float constant
`math.pi` is embedded as the exact value of the IEEE-754 double it denotes,
so every definition is computable. Division follows Lean's `x / 0 = 0`
convention; every place the source can divide by zero is either guarded
(`Kettle.make?` models the `ZeroDivisionError` of construction with zero
diameter) or only used under a nonzero hypothesis.
-/

namespace PidSim

/-- The exact rational value of the IEEE-754 double `math.pi`
(3.141592653589793...), the constant the Python source computes with. -/
def mathPi : ℚ := 884279719003555 / 281474976710656

/-- `Kettle.DENSITY_WATER = 0.997` (kettle.py line 16). -/
def DENSITY_WATER : ℚ := 997 / 1000

/-- `Kettle.SPECIFIC_HEAT_CAP_WATER = 4.200` (kettle.py line 20). -/
def SPECIFIC_HEAT_CAP_WATER : ℚ := 4200 / 1000

/-- `Kettle.SPECIFIC_HEAT_CAP_BRASS = 0.400` (kettle.py line 24). -/
def SPECIFIC_HEAT_CAP_BRASS : ℚ := 400 / 1000

/-- `Kettle.THERMAL_CONDUCTIVITY_BRASS = 96` (kettle.py line 32). -/
def THERMAL_CONDUCTIVITY_BRASS : ℚ := 96

/-- `Kettle.THERMAL_CONDUCTIVITY_KETTLE = THERMAL_CONDUCTIVITY_BRASS * 0.5`
(kettle.py line 33). -/
def THERMAL_CONDUCTIVITY_KETTLE : ℚ := THERMAL_CONDUCTIVITY_BRASS * (5 / 10)

/-- The state of a `Kettle` object: the fields set by `Kettle.__init__`
(kettle.py lines 35-46).  `waterMass`, `surface` and `kettleMass` are
immutable after construction; `temp` is mutated by `heat` and `cool`. -/
structure Kettle where
  waterMass : ℚ
  surface : ℚ
  kettleMass : ℚ
  temp : ℚ
  deriving DecidableEq

/-- The body of `Kettle.__init__` (kettle.py lines 35-46):
water mass from volume and density, height of the cylinder solved from the
volume, surface area as two end caps plus the lateral surface, converted
from cm^2 to m^2. -/
def Kettle.mkRaw (diameter volume temp kettleMass : ℚ) : Kettle :=
  let waterMass := volume * DENSITY_WATER
  let radius := diameter / 2
  let height := (volume * 1000) / (mathPi * radius ^ 2)
  let surface := (2 * mathPi * radius ^ 2 + 2 * mathPi * radius * height) / 10000
  { waterMass := waterMass, surface := surface, kettleMass := kettleMass, temp := temp }

/-- `Kettle.__init__` as a fallible constructor: the only failure path of
the Python code is the `ZeroDivisionError` raised when the height divisor
`math.pi * radius ** 2` is zero (i.e. `diameter = 0`); no other input is
validated. -/
def Kettle.make? (diameter volume temp kettleMass : ℚ) : Option Kettle :=
  if mathPi * (diameter / 2) ^ 2 = 0 then none
  else some (Kettle.mkRaw diameter volume temp kettleMass)

/-- `Kettle._get_deltaT` (kettle.py lines 83-90):
`deltaT = (power * duration) / (c_water * m_water + c_kettle * m_kettle)`. -/
def Kettle.get_deltaT (k : Kettle) (power duration : ℚ) : ℚ :=
  (power * duration) /
    (SPECIFIC_HEAT_CAP_WATER * k.waterMass + SPECIFIC_HEAT_CAP_BRASS * k.kettleMass)

/-- `Kettle.heat` (kettle.py lines 53-62): adds
`_get_deltaT(power * efficiency, duration)` to the temperature.  The Python
method mutates `self._temp` and returns it; here the updated state is
returned and its `temp` field is the return value.  `efficiency` is the
explicit form of the Python default argument `efficiency=0.98`. -/
def Kettle.heat (k : Kettle) (power duration efficiency : ℚ) : Kettle :=
  { k with temp := k.temp + k.get_deltaT (power * efficiency) duration }

/-- `Kettle.cool` (kettle.py lines 64-81): conductive loss power
`k * A * (T - T_ambient) / duration`, converted W -> kW, then the shared
delta helper scaled by `heat_loss_factor` is subtracted.
`heat_loss_factor` is the explicit form of the Python default `=1`. -/
def Kettle.cool (k : Kettle) (duration ambient_temp heat_loss_factor : ℚ) : Kettle :=
  let power := (THERMAL_CONDUCTIVITY_KETTLE * k.surface * (k.temp - ambient_temp)) / duration
  let power2 := power / 1000
  { k with temp := k.temp - k.get_deltaT power2 duration * heat_loss_factor }

/-- Python's builtin `round` (round half to even, "banker's rounding"),
used by `sim.py` to size the delay buffer. -/
def pyRound (x : ℚ) : ℤ :=
  if x - ⌊x⌋ = 1 / 2 then (if ⌊x⌋ % 2 = 0 then ⌊x⌋ else ⌊x⌋ + 1) else round x

/-- The configuration surface consumed by the driver (the fields of the
parsed `args` object that `sim_update`, `simulate_pid` and
`simulate_autotune` read; sim.py lines 21-81). -/
structure Args where
  setpoint : ℚ
  ambient_temp : ℚ
  sampletime : ℚ
  heater_power : ℚ
  heat_loss_factor : ℚ
  out_min : ℚ
  out_max : ℚ
  kettle_temp : ℚ
  delay : ℚ
  interval : ℚ
  diameter : ℚ
  volume : ℚ
  kettle_mass : ℚ

/-- The delay-buffer capacity `max(1, round(args.delay / args.sampletime))`
(sim.py lines 158 and 208). -/
def maxlenOf (args : Args) : ℕ := (max 1 (pyRound (args.delay / args.sampletime))).toNat

/-- `deque(maxlen=m).append(x)`: append at the back and, if the length now
exceeds the capacity, evict from the front. -/
def dequeAppend (maxlen : ℕ) (q : List ℚ) (x : ℚ) : List ℚ :=
  let q2 := q ++ [x]
  q2.drop (q2.length - maxlen)

/-- The per-run simulation state: the fields of the `Simulation` named
tuple (sim.py lines 15-18) that the driver mutates, with the controller
state abstracted over a type `σ` (the driver is polymorphic over the
controller, spec section 6). -/
structure SimState (σ : Type) where
  ctrl : σ
  kettle : Kettle
  delayed_temps : List ℚ
  timestamps : List ℚ
  heater_temps : List ℚ
  sensor_temps : List ℚ
  outputs : List ℚ

/-- `sim_update` (sim.py lines 94-101): heat with power
`heater_power * (output / out_max)` (default efficiency 0.98), cool, push
the new temperature into the delay buffer, then record timestamp, output,
the post-push buffer front as the sensor temperature and the instantaneous
temperature as the heater temperature. -/
def sim_update {σ : Type} (args : Args) (maxlen : ℕ) (sim : SimState σ)
    (timestamp output : ℚ) : SimState σ :=
  let k1 := sim.kettle.heat (args.heater_power * (output / args.out_max))
    args.sampletime (98 / 100)
  let k2 := k1.cool args.sampletime args.ambient_temp args.heat_loss_factor
  let dt := dequeAppend maxlen sim.delayed_temps k2.temp
  { ctrl := sim.ctrl
    kettle := k2
    delayed_temps := dt
    timestamps := sim.timestamps ++ [timestamp]
    heater_temps := sim.heater_temps ++ [k2.temp]
    sensor_temps := sim.sensor_temps ++ [dt.headD 0]
    outputs := sim.outputs ++ [output] }

/-- The feedback-controller capability (spec section 6): the Python method
`calc(input, setpoint)` consumes the observed temperature and the setpoint
and produces an output level, threading its own internal state (`calc` is a
Lean keyword, hence the field name `calcFn`). -/
structure PIDController (σ : Type) where
  calcFn : σ → ℚ → ℚ → ℚ × σ

/-- The auto-tune controller capability (spec section 6): `run` consumes
the observed temperature and returns a completion flag while updating its
state; `output` reads the current output field of that state. -/
structure AutotuneController (σ : Type) where
  run : σ → ℚ → Bool × σ
  output : σ → ℚ

/-- The state of a simulation run before the stepping loop (sim.py lines
156-170 and 206-226): a freshly constructed kettle and a delay buffer
pre-filled to capacity with the initial temperature, all records empty. -/
def simInit {σ : Type} (args : Args) (c0 : σ) : SimState σ :=
  { ctrl := c0
    kettle := Kettle.mkRaw args.diameter args.volume args.kettle_temp args.kettle_mass
    delayed_temps := List.replicate (maxlenOf args) args.kettle_temp
    timestamps := []
    heater_temps := []
    sensor_temps := []
    outputs := [] }

/-- One iteration of the feedback loop body for one run (sim.py lines
232-236): raw output from `calc` at the pre-push buffer front, clamped
below by `out_min` then above by `out_max`, then `sim_update`. -/
def pidStep {σ : Type} (args : Args) (c : PIDController σ)
    (st : SimState σ) (timestamp : ℚ) : SimState σ :=
  let r := c.calcFn st.ctrl (st.delayed_temps.headD 0) args.setpoint
  let output := max r.1 args.out_min
  let output2 := min output args.out_max
  sim_update args (maxlenOf args) { st with ctrl := r.2 } timestamp output2

/-- `n` iterations of the feedback loop (sim.py lines 229-236) for one run,
together with the accumulated timestamp (incremented by `sampletime` at the
top of each iteration). -/
def pidRun {σ : Type} (args : Args) (c : PIDController σ) (c0 : σ) : ℕ → SimState σ × ℚ
  | 0 => (simInit args c0, 0)
  | n + 1 =>
    let p := pidRun args c c0 n
    let ts := p.2 + args.sampletime
    (pidStep args c p.1 ts, ts)

/-- The number of iterations the feedback while-loop performs: the loop
runs while the accumulated timestamp is below `interval * 60`. -/
def loopCount (args : Args) : ℕ := (⌈args.interval * 60 / args.sampletime⌉).toNat

/-- The state of the auto-tune loop (sim.py lines 172-182): the run record,
the accumulated timestamp, and whether `run()` has signalled completion. -/
structure ATState (σ : Type) where
  sim : SimState σ
  timestamp : ℚ
  done : Bool

/-- One iteration of the auto-tune loop (sim.py lines 173-175): call
`run` on the pre-push buffer front; on completion stop, otherwise advance
the timestamp and `sim_update` with the controller's `output` field — with
no clamping. -/
def autotuneStep {σ : Type} (args : Args) (c : AutotuneController σ)
    (st : ATState σ) : ATState σ :=
  if st.done then st
  else
    let r := c.run st.sim.ctrl (st.sim.delayed_temps.headD 0)
    if r.1 then
      { sim := { st.sim with ctrl := r.2 }, timestamp := st.timestamp, done := true }
    else
      let ts := st.timestamp + args.sampletime
      { sim := sim_update args (maxlenOf args) { st.sim with ctrl := r.2 } ts (c.output r.2)
        timestamp := ts
        done := false }

/-- Up to `n` iterations of the auto-tune loop starting from the freshly
initialized run. -/
def autotuneRun {σ : Type} (args : Args) (c : AutotuneController σ) (c0 : σ) :
    ℕ → ATState σ
  | 0 => { sim := simInit args c0, timestamp := 0, done := false }
  | n + 1 => autotuneStep args c (autotuneRun args c c0 n)

/-- The kettle state after the physical update of one `sim_update` call. -/
def stepKettle (args : Args) (k : Kettle) (output : ℚ) : Kettle :=
  (k.heat (args.heater_power * (output / args.out_max)) args.sampletime (98 / 100)).cool
    args.sampletime args.ambient_temp args.heat_loss_factor

/-- The clamped output applied by one feedback iteration: the raw `calc`
result clamped below by `out_min` then above by `out_max`. -/
def clampedOut {σ : Type} (args : Args) (c : PIDController σ) (st : SimState σ) : ℚ :=
  min (max (c.calcFn st.ctrl (st.delayed_temps.headD 0) args.setpoint).1 args.out_min)
    args.out_max

/-- The end-to-end scenario configuration of spec section 8: 50 cm diameter,
70 l volume, initial temperature 40, ambient 20, 5 kg metal mass, 6 kW
heater, 5 s sample interval, 15 s delay, 1 minute interval, output clamped
to [0, 100], setpoint 45 (the configured default; the scenario controller
ignores it). -/
def scenarioArgs : Args where
  setpoint := 45
  ambient_temp := 20
  sampletime := 5
  heater_power := 6
  heat_loss_factor := 1
  out_min := 0
  out_max := 100
  kettle_temp := 40
  delay := 15
  interval := 1
  diameter := 50
  volume := 70
  kettle_mass := 5

/-- The scenario's feedback controller: returns the constant output 50. -/
def const50 : PIDController Unit where
  calcFn := fun s _ _ => (50, s)

/-- An auto-tune controller that never completes and whose output field
reads 50 (a legal percentage). -/
def ctrlConstAT : AutotuneController Unit where
  run := fun s _ => (false, s)
  output := fun _ => 50

/-- An auto-tune controller that never completes and whose output field
reads 150, outside the configured clamp range [0, 100]. -/
def ctrl150 : AutotuneController Unit where
  run := fun s _ => (false, s)
  output := fun _ => 150

/-- The scenario configuration with the output ceiling lowered to 50, to
separate division by `out_max` from division by a fixed 100. -/
def atArgs50 : Args := { scenarioArgs with out_max := 50 }

/-- The scenario configuration with a 1 s delay, whose delay/sample ratio
1/5 rounds to zero. -/
def lowDelayArgs : Args := { scenarioArgs with delay := 1 }

/-- Closed form of one `cool` call for a nonzero duration: the duration
cancels between the loss-power computation and the shared delta helper. -/
theorem Kettle.cool_temp_eq (k : Kettle) (d a f : ℚ) (hd : d ≠ 0) :
    (k.cool d a f).temp =
      k.temp - THERMAL_CONDUCTIVITY_KETTLE * k.surface * (k.temp - a) / 1000 /
        (SPECIFIC_HEAT_CAP_WATER * k.waterMass + SPECIFIC_HEAT_CAP_BRASS * k.kettleMass) * f := by
  have hnum : THERMAL_CONDUCTIVITY_KETTLE * k.surface * (k.temp - a) / d / 1000 * d =
      THERMAL_CONDUCTIVITY_KETTLE * k.surface * (k.temp - a) / 1000 := by
    field_simp
    ring
  simp only [Kettle.cool, Kettle.get_deltaT]
  rw [hnum]

/-- C4: one `heat(power, duration, efficiency)` call adds exactly
`(power * efficiency * duration) / (c_water * waterMass + c_brass * kettleMass)`
to the temperature (the returned state's `temp` is the returned value), and
`power = 0` or `duration = 0` leaves the temperature unchanged. -/
theorem heat_formula (k : Kettle) (p d e : ℚ) :
    (k.heat p d e).temp = k.temp + (p * e * d) /
      (SPECIFIC_HEAT_CAP_WATER * k.waterMass + SPECIFIC_HEAT_CAP_BRASS * k.kettleMass) ∧
    (k.heat 0 d e).temp = k.temp ∧ (k.heat p 0 e).temp = k.temp := by
  refine ⟨?_, ?_, ?_⟩ <;> simp [Kettle.heat, Kettle.get_deltaT]

/-- C10: consecutive `heat` calls with the same power and efficiency compose
additively in duration: `heat p d1 e` then `heat p d2 e` ends at the same
state as the single call `heat p (d1 + d2) e`. -/
theorem heat_additive (k : Kettle) (p e d1 d2 : ℚ) :
    (k.heat p d1 e).heat p d2 e = k.heat p (d1 + d2) e := by
  simp only [Kettle.heat, Kettle.get_deltaT]
  congr 1
  ring

/-- C6: the temperature after one `cool` call does not depend on the
(nonzero) duration: the duration divides out of the loss-power computation
and re-multiplies in the shared delta helper. -/
theorem cool_duration_independent (k : Kettle) (a f d1 d2 : ℚ)
    (h1 : d1 ≠ 0) (h2 : d2 ≠ 0) :
    (k.cool d1 a f).temp = (k.cool d2 a f).temp := by
  rw [Kettle.cool_temp_eq k d1 a f h1, Kettle.cool_temp_eq k d2 a f h2]

/-- Witness for `cool_duration_independent` at a concrete kettle and the
concrete durations 5 and 7. -/
theorem cool_duration_independent_witness :
    ((Kettle.mkRaw 50 70 40 5).cool 5 20 1).temp =
      ((Kettle.mkRaw 50 70 40 5).cool 7 20 1).temp :=
  cool_duration_independent (Kettle.mkRaw 50 70 40 5) 20 1 5 7 (by norm_num) (by norm_num)

/-- C5: sign behaviour of `cool` on a valid kettle state (the data-model
invariants: `surfaceArea > 0`, `contentsMass > 0`, `vesselMass ≥ 0`) with a
positive duration and heat-loss factor: at ambient temperature the
temperature is unchanged; strictly above ambient it strictly decreases;
strictly below ambient it strictly increases. -/
theorem cool_sign_behavior (k : Kettle) (d a f : ℚ)
    (hs : 0 < k.surface) (hw : 0 < k.waterMass) (hm : 0 ≤ k.kettleMass)
    (hd : 0 < d) (hf : 0 < f) :
    (k.temp = a → (k.cool d a f).temp = k.temp) ∧
    (a < k.temp → (k.cool d a f).temp < k.temp) ∧
    (k.temp < a → k.temp < (k.cool d a f).temp) := by
  have hM : 0 < SPECIFIC_HEAT_CAP_WATER * k.waterMass + SPECIFIC_HEAT_CAP_BRASS * k.kettleMass := by
    have h1 : 0 < SPECIFIC_HEAT_CAP_WATER * k.waterMass := by
      unfold SPECIFIC_HEAT_CAP_WATER; positivity
    have h2 : 0 ≤ SPECIFIC_HEAT_CAP_BRASS * k.kettleMass := by
      unfold SPECIFIC_HEAT_CAP_BRASS; positivity
    linarith
  have hC : (0 : ℚ) < THERMAL_CONDUCTIVITY_KETTLE := by
    unfold THERMAL_CONDUCTIVITY_KETTLE THERMAL_CONDUCTIVITY_BRASS; norm_num
  have heq := Kettle.cool_temp_eq k d a f (ne_of_gt hd)
  refine ⟨?_, ?_, ?_⟩
  · intro h
    rw [heq, h]
    simp
  · intro h
    rw [heq]
    have hpos : 0 < THERMAL_CONDUCTIVITY_KETTLE * k.surface * (k.temp - a) / 1000 /
        (SPECIFIC_HEAT_CAP_WATER * k.waterMass + SPECIFIC_HEAT_CAP_BRASS * k.kettleMass) * f := by
      have hnum : 0 < THERMAL_CONDUCTIVITY_KETTLE * k.surface * (k.temp - a) := by
        have : (0 : ℚ) < k.temp - a := by linarith
        positivity
      positivity
    linarith
  · intro h
    rw [heq]
    have hneg : THERMAL_CONDUCTIVITY_KETTLE * k.surface * (k.temp - a) / 1000 /
        (SPECIFIC_HEAT_CAP_WATER * k.waterMass + SPECIFIC_HEAT_CAP_BRASS * k.kettleMass) * f < 0 := by
      have hnum : THERMAL_CONDUCTIVITY_KETTLE * k.surface * (k.temp - a) < 0 := by
        have h1 : k.temp - a < 0 := by linarith
        have h2 : 0 < THERMAL_CONDUCTIVITY_KETTLE * k.surface := by positivity
        exact mul_neg_of_pos_of_neg h2 h1
      have : THERMAL_CONDUCTIVITY_KETTLE * k.surface * (k.temp - a) / 1000 < 0 := by
        exact div_neg_of_neg_of_pos hnum (by norm_num)
      have : THERMAL_CONDUCTIVITY_KETTLE * k.surface * (k.temp - a) / 1000 /
          (SPECIFIC_HEAT_CAP_WATER * k.waterMass + SPECIFIC_HEAT_CAP_BRASS * k.kettleMass) < 0 :=
        div_neg_of_neg_of_pos this hM
      exact mul_neg_of_neg_of_pos this hf
    linarith

/-- Witness for `cool_sign_behavior`: a concrete kettle at 40 degrees cooled
against a 20-degree ambient strictly loses temperature. -/
theorem cool_sign_behavior_witness :
    ((Kettle.mkRaw 50 70 40 5).cool 5 20 1).temp < (Kettle.mkRaw 50 70 40 5).temp :=
  (cool_sign_behavior (Kettle.mkRaw 50 70 40 5) 5 20 1
    (by norm_num [Kettle.mkRaw, mathPi, DENSITY_WATER])
    (by norm_num [Kettle.mkRaw, DENSITY_WATER])
    (by norm_num [Kettle.mkRaw])
    (by norm_num) (by norm_num)).2.1 (by norm_num [Kettle.mkRaw])

/-- C7 counterexample: constructing a kettle with the non-positive diameter
-10 (volume 70) does not fail: the constructor succeeds and silently yields
a strictly negative surface area. -/
theorem construction_silent_degenerate :
    Kettle.make? (-10) 70 40 5 = some (Kettle.mkRaw (-10) 70 40 5) ∧
    (Kettle.mkRaw (-10) 70 40 5).surface < 0 := by
  constructor
  · rw [Kettle.make?, if_neg]
    norm_num [mathPi]
  · norm_num [Kettle.mkRaw, mathPi]

/-- C7 (amended): construction with diameter > 0, volume > 0 and vessel
mass >= 0 succeeds and yields a strictly positive surface area and a
strictly positive contents mass. -/
theorem construction_valid_pos (d v t m : ℚ) (hd : 0 < d) (hv : 0 < v) (hm : 0 ≤ m) :
    Kettle.make? d v t m = some (Kettle.mkRaw d v t m) ∧
    0 < (Kettle.mkRaw d v t m).surface ∧ 0 < (Kettle.mkRaw d v t m).waterMass := by
  have hpi : 0 < mathPi := by norm_num [mathPi]
  have hr : 0 < d / 2 := by positivity
  have hden : 0 < mathPi * (d / 2) ^ 2 := by positivity
  refine ⟨?_, ?_, ?_⟩
  · rw [Kettle.make?, if_neg (ne_of_gt hden)]
  · show 0 < (2 * mathPi * (d / 2) ^ 2 +
      2 * mathPi * (d / 2) * ((v * 1000) / (mathPi * (d / 2) ^ 2))) / 10000
    have hh : 0 < (v * 1000) / (mathPi * (d / 2) ^ 2) := by positivity
    positivity
  · show 0 < v * DENSITY_WATER
    have : (0 : ℚ) < DENSITY_WATER := by norm_num [DENSITY_WATER]
    positivity

/-- Witness for `construction_valid_pos` at the concrete valid geometry
diameter 50, volume 70, mass 5. -/
theorem construction_valid_pos_witness :
    Kettle.make? 50 70 40 5 = some (Kettle.mkRaw 50 70 40 5) ∧
    0 < (Kettle.mkRaw 50 70 40 5).surface ∧ 0 < (Kettle.mkRaw 50 70 40 5).waterMass :=
  construction_valid_pos 50 70 40 5 (by norm_num) (by norm_num) (by norm_num)

@[simp] theorem sim_update_ctrl {σ : Type} (args : Args) (m : ℕ) (sim : SimState σ)
    (ts out : ℚ) : (sim_update args m sim ts out).ctrl = sim.ctrl := rfl

@[simp] theorem sim_update_kettle {σ : Type} (args : Args) (m : ℕ) (sim : SimState σ)
    (ts out : ℚ) : (sim_update args m sim ts out).kettle = stepKettle args sim.kettle out := rfl

@[simp] theorem sim_update_delayed {σ : Type} (args : Args) (m : ℕ) (sim : SimState σ)
    (ts out : ℚ) : (sim_update args m sim ts out).delayed_temps =
      dequeAppend m sim.delayed_temps (stepKettle args sim.kettle out).temp := rfl

@[simp] theorem sim_update_timestamps {σ : Type} (args : Args) (m : ℕ) (sim : SimState σ)
    (ts out : ℚ) : (sim_update args m sim ts out).timestamps = sim.timestamps ++ [ts] := rfl

@[simp] theorem sim_update_heater {σ : Type} (args : Args) (m : ℕ) (sim : SimState σ)
    (ts out : ℚ) : (sim_update args m sim ts out).heater_temps =
      sim.heater_temps ++ [(stepKettle args sim.kettle out).temp] := rfl

@[simp] theorem sim_update_sensor {σ : Type} (args : Args) (m : ℕ) (sim : SimState σ)
    (ts out : ℚ) : (sim_update args m sim ts out).sensor_temps =
      sim.sensor_temps ++
        [(dequeAppend m sim.delayed_temps (stepKettle args sim.kettle out).temp).headD 0] := rfl

@[simp] theorem sim_update_outputs {σ : Type} (args : Args) (m : ℕ) (sim : SimState σ)
    (ts out : ℚ) : (sim_update args m sim ts out).outputs = sim.outputs ++ [out] := rfl

/-- `pidStep` is `sim_update` applied to the clamped output and the stepped
controller state. -/
theorem pidStep_eq {σ : Type} (args : Args) (c : PIDController σ) (st : SimState σ)
    (ts : ℚ) :
    pidStep args c st ts =
      sim_update args (maxlenOf args)
        { st with ctrl := (c.calcFn st.ctrl (st.delayed_temps.headD 0) args.setpoint).2 }
        ts (clampedOut args c st) := rfl

@[simp] theorem pidRun_zero {σ : Type} (args : Args) (c : PIDController σ) (c0 : σ) :
    pidRun args c c0 0 = (simInit args c0, 0) := rfl

theorem pidRun_succ {σ : Type} (args : Args) (c : PIDController σ) (c0 : σ) (n : ℕ) :
    pidRun args c c0 (n + 1) =
      (pidStep args c (pidRun args c c0 n).1 ((pidRun args c c0 n).2 + args.sampletime),
        (pidRun args c c0 n).2 + args.sampletime) := rfl

/-- The delay-buffer capacity is always at least 1. -/
theorem maxlenOf_pos (args : Args) : 1 ≤ maxlenOf args := by
  have h : (1 : ℤ) ≤ max 1 (pyRound (args.delay / args.sampletime)) := le_max_left _ _
  unfold maxlenOf
  omega

/-- Appending to a deque already at capacity keeps it exactly at
capacity. -/
theorem dequeAppend_length (m : ℕ) (q : List ℚ) (x : ℚ) (h : q.length = m) :
    (dequeAppend m q x).length = m := by
  simp [dequeAppend, h]

/-- Master invariant of the feedback stepping loop, by induction on the
iteration count: the four records grow in lockstep, the accumulated
timestamp is the exact multiple of the sample interval, the delay buffer is
the capacity-sized tail of the pre-fill followed by all recorded heater
temperatures, every recorded sensor temperature is a copy of an entry of
that padded history, and every recorded heater temperature is the kettle
temperature right after its step. -/
theorem pidRun_invariant {σ : Type} (args : Args) (c : PIDController σ) (c0 : σ) (n : ℕ) :
    ((pidRun args c c0 n).1.timestamps.length = n ∧
     (pidRun args c c0 n).1.outputs.length = n ∧
     (pidRun args c c0 n).1.sensor_temps.length = n ∧
     (pidRun args c c0 n).1.heater_temps.length = n) ∧
    (pidRun args c c0 n).2 = n * args.sampletime ∧
    (pidRun args c c0 n).1.delayed_temps =
      (List.replicate (maxlenOf args) args.kettle_temp ++
        (pidRun args c c0 n).1.heater_temps).drop n ∧
    (∀ i, i < n → (pidRun args c c0 n).1.sensor_temps.getD i 0 =
      (List.replicate (maxlenOf args) args.kettle_temp ++
        (pidRun args c c0 n).1.heater_temps).getD (i + 1) 0) ∧
    (∀ i, i < n → (pidRun args c c0 n).1.heater_temps.getD i 0 =
      (pidRun args c c0 (i + 1)).1.kettle.temp) := by
  induction n with
  | zero => simp [simInit]
  | succ n ih =>
    obtain ⟨⟨hts, hout, hsen, hheat⟩, htime, hdel, hsenval, hheatval⟩ := ih
    have hml := maxlenOf_pos args
    have hdlen : (pidRun args c c0 n).1.delayed_temps.length = maxlenOf args := by
      rw [hdel]
      simp [hheat]
    rw [pidRun_succ, pidStep_eq]
    have hpadlen : (List.replicate (maxlenOf args) args.kettle_temp ++
        (pidRun args c c0 n).1.heater_temps).length = maxlenOf args + n := by
      simp [hheat]
    have hx : ∀ y : ℚ,
        dequeAppend (maxlenOf args) (pidRun args c c0 n).1.delayed_temps y =
          (List.replicate (maxlenOf args) args.kettle_temp ++
            ((pidRun args c c0 n).1.heater_temps ++ [y])).drop (n + 1) := by
      intro y
      rw [dequeAppend, hdel]
      simp only [List.length_append, List.length_drop, hpadlen, List.length_cons,
        List.length_nil]
      rw [← List.drop_append_of_le_length (by omega), List.drop_drop,
        ← List.append_assoc]
      congr 1
      omega
    refine ⟨⟨?_, ?_, ?_, ?_⟩, ?_, ?_, ?_, ?_⟩
    · simp [hts]
    · simp [hout]
    · simp [hsen]
    · simp [hheat]
    · rw [htime]
      push_cast
      ring
    · simp only [sim_update_delayed, sim_update_heater, sim_update_ctrl, sim_update_kettle]
      exact hx _
    · intro i hi
      simp only [sim_update_sensor, sim_update_heater, sim_update_ctrl, sim_update_kettle]
      rcases Nat.lt_or_ge i n with hlt | hge
      · rw [List.getD_append _ _ _ _ (by omega : i < (pidRun args c c0 n).1.sensor_temps.length),
          hsenval i hlt, ← List.append_assoc]
        exact (List.getD_append _ _ _ _ (by rw [hpadlen]; omega)).symm
      · have hieq : i = n := by omega
        subst hieq
        rw [List.getD_append_right _ _ _ _ (by omega), hsen, Nat.sub_self, List.getD_cons_zero,
          hx, ← List.append_assoc]
        simp only [List.headD_eq_head?_getD, List.head?_drop, List.getD_eq_getElem?_getD]
    · intro i hi
      simp only [sim_update_heater, sim_update_ctrl, sim_update_kettle]
      rcases Nat.lt_or_ge i n with hlt | hge
      · rw [List.getD_append _ _ _ _ (by omega : i < (pidRun args c c0 n).1.heater_temps.length)]
        exact hheatval i hlt
      · have hieq : i = n := by omega
        subst hieq
        rw [List.getD_append_right _ _ _ _ (by omega), hheat, Nat.sub_self, List.getD_cons_zero,
          pidRun_succ, pidStep_eq]
        simp

/-- When the completion check fails, one auto-tune iteration advances the
timestamp and performs `sim_update` at the controller's `output` field. -/
theorem autotuneStep_continue {σ : Type} (args : Args) (c : AutotuneController σ)
    (st : ATState σ) (h1 : st.done = false)
    (h2 : (c.run st.sim.ctrl (st.sim.delayed_temps.headD 0)).1 = false) :
    autotuneStep args c st =
      { sim := sim_update args (maxlenOf args)
          { st.sim with ctrl := (c.run st.sim.ctrl (st.sim.delayed_temps.headD 0)).2 }
          (st.timestamp + args.sampletime)
          (c.output (c.run st.sim.ctrl (st.sim.delayed_temps.headD 0)).2)
        timestamp := st.timestamp + args.sampletime
        done := false } := by
  simp only [autotuneStep]
  rw [h1, h2]
  simp

/-- One auto-tune iteration preserves the delay-buffer length. -/
theorem autotuneStep_delayed_length {σ : Type} (args : Args) (c : AutotuneController σ)
    (st : ATState σ) (h : st.sim.delayed_temps.length = maxlenOf args) :
    (autotuneStep args c st).sim.delayed_temps.length = maxlenOf args := by
  cases hdone : st.done with
  | true => simp [autotuneStep, hdone, h]
  | false =>
    cases hrun : (c.run st.sim.ctrl (st.sim.delayed_temps.headD 0)).1 with
    | true =>
      simp only [autotuneStep]
      rw [hdone, hrun]
      simp [h]
    | false =>
      rw [autotuneStep_continue args c st hdone hrun]
      simp only [sim_update_delayed]
      exact dequeAppend_length _ _ _ h

/-- The auto-tune loop keeps the delay buffer exactly at capacity. -/
theorem autotune_delayed_length {σ : Type} (args : Args) (c : AutotuneController σ)
    (c0 : σ) (n : ℕ) :
    (autotuneRun args c c0 n).sim.delayed_temps.length = maxlenOf args := by
  induction n with
  | zero => simp [autotuneRun, simInit]
  | succ n ih => exact autotuneStep_delayed_length args c _ ih

/-- C8: the delay buffer is created with capacity
`max(1, round(delay / sampletime))`, pre-filled to exactly that capacity
with the initial temperature, and in both stepping modes its length is
still exactly the capacity after every step; a delay/sample ratio that
rounds to zero yields capacity 1. -/
theorem delay_buffer_invariants {σ1 σ2 : Type} (args : Args) (c : PIDController σ1)
    (c0 : σ1) (ac : AutotuneController σ2) (a0 : σ2) (n : ℕ) :
    maxlenOf args = (max 1 (pyRound (args.delay / args.sampletime))).toNat ∧
    1 ≤ maxlenOf args ∧
    (simInit args c0).delayed_temps = List.replicate (maxlenOf args) args.kettle_temp ∧
    (pidRun args c c0 n).1.delayed_temps.length = maxlenOf args ∧
    (autotuneRun args ac a0 n).sim.delayed_temps.length = maxlenOf args ∧
    (pyRound (args.delay / args.sampletime) = 0 → maxlenOf args = 1) := by
  refine ⟨rfl, maxlenOf_pos args, rfl, ?_, autotune_delayed_length args ac a0 n, ?_⟩
  · obtain ⟨⟨_, _, _, hheat⟩, _, hdel, _, _⟩ := pidRun_invariant args c c0 n
    rw [hdel]
    simp [hheat]
  · intro h
    simp [maxlenOf, h]

/-- Witness for `delay_buffer_invariants`: with a 1 s delay and 5 s sample
interval the ratio 1/5 rounds to zero and the capacity is 1. -/
theorem delay_buffer_invariants_witness : maxlenOf lowDelayArgs = 1 := by
  have hq : lowDelayArgs.delay / lowDelayArgs.sampletime = 1 / 5 := by
    norm_num [lowDelayArgs, scenarioArgs]
  have hfl : ⌊(1 : ℚ) / 5⌋ = 0 := by
    rw [Int.floor_eq_iff]
    norm_num
  have hrd : round ((1 : ℚ) / 5) = 0 := by
    rw [round_eq, show (1 : ℚ) / 5 + 1 / 2 = 7 / 10 by norm_num, Int.floor_eq_iff]
    norm_num
  exact (delay_buffer_invariants lowDelayArgs const50 () ctrlConstAT () 0).2.2.2.2.2
    (by rw [hq, pyRound, hfl]; norm_num [hrd])

/-- C9: in feedback mode the four recorded sequences have length `n` after
`n` iterations (hence always equal lengths), the accumulated timestamp is
exactly `n * sampletime`, and the while-rule `timestamp < interval * 60`
admits exactly `loopCount` iterations — so at termination the common length
is `loopCount args = ⌈interval * 60 / sampletime⌉`. -/
theorem pid_record_lengths {σ : Type} (args : Args) (c : PIDController σ) (c0 : σ)
    (hst : 0 < args.sampletime) :
    (∀ n : ℕ,
      (pidRun args c c0 n).1.timestamps.length = n ∧
      (pidRun args c c0 n).1.outputs.length = n ∧
      (pidRun args c c0 n).1.sensor_temps.length = n ∧
      (pidRun args c c0 n).1.heater_temps.length = n ∧
      (pidRun args c c0 n).2 = n * args.sampletime) ∧
    ∀ k : ℕ, k < loopCount args ↔ (k : ℚ) * args.sampletime < args.interval * 60 := by
  constructor
  · intro n
    obtain ⟨⟨h1, h2, h3, h4⟩, h5, _⟩ := pidRun_invariant args c c0 n
    exact ⟨h1, h2, h3, h4, h5⟩
  · intro k
    rw [loopCount, Int.lt_toNat, Int.lt_ceil, lt_div_iff₀ hst]
    norm_cast

/-- Witness for `pid_record_lengths`: the scenario run records exactly
`loopCount` outputs after `loopCount` iterations. -/
theorem pid_record_lengths_witness :
    (pidRun scenarioArgs const50 () (loopCount scenarioArgs)).1.outputs.length =
      loopCount scenarioArgs :=
  ((pid_record_lengths scenarioArgs const50 () (by norm_num [scenarioArgs])).1
    (loopCount scenarioArgs)).2.1

/-- C3 (amended): in feedback mode every iteration applies to the thermal
model and appends to the record exactly the clamped output
`min (max raw out_min) out_max`, never the raw one, and consequently every
recorded output lies in `[out_min, out_max]`.  (In auto-tune mode the
driver applies the controller's `output` field with no clamping; see the
counterexample.) -/
theorem pid_clamping {σ : Type} (args : Args) (c : PIDController σ) (c0 : σ)
    (h : args.out_min ≤ args.out_max) :
    (∀ (st : SimState σ) (ts : ℚ), pidStep args c st ts =
      sim_update args (maxlenOf args)
        { st with ctrl := (c.calcFn st.ctrl (st.delayed_temps.headD 0) args.setpoint).2 }
        ts
        (min (max (c.calcFn st.ctrl (st.delayed_temps.headD 0) args.setpoint).1 args.out_min)
          args.out_max)) ∧
    ∀ n : ℕ, ∀ o ∈ (pidRun args c c0 n).1.outputs,
      args.out_min ≤ o ∧ o ≤ args.out_max := by
  refine ⟨fun st ts => rfl, ?_⟩
  intro n
  induction n with
  | zero => simp [simInit]
  | succ n ih =>
    rw [pidRun_succ, pidStep_eq]
    simp only [sim_update_outputs]
    intro o ho
    rcases List.mem_append.mp ho with hmem | hmem
    · exact ih o hmem
    · rw [List.mem_singleton.mp hmem]
      constructor
      · exact le_min (le_max_right _ _) h
      · exact min_le_right _ _

/-- Witness for `pid_clamping`: the output 50 recorded at the first
scenario step lies within the configured clamp range [0, 100]. -/
theorem pid_clamping_witness : scenarioArgs.out_min ≤ 50 ∧ (50 : ℚ) ≤ scenarioArgs.out_max :=
  (pid_clamping scenarioArgs const50 () (by norm_num [scenarioArgs])).2 1 50 (by
    rw [pidRun_succ, pidStep_eq]
    simp only [sim_update_outputs]
    simp [clampedOut, const50, simInit,
      show min (max (50 : ℚ) scenarioArgs.out_min) scenarioArgs.out_max = 50 by
        norm_num [scenarioArgs]])

/-- C1 (amended): at every executed auto-tune step the power applied to the
thermal model is `heater_power * (output / out_max)` — the same conversion
as feedback mode, dividing by the configured `out_max` rather than by a
fixed 100 (the two agree only when `out_max = 100`). -/
theorem autotune_power_conversion {σ : Type} (args : Args) (c : AutotuneController σ)
    (st : ATState σ) (h1 : st.done = false)
    (h2 : (c.run st.sim.ctrl (st.sim.delayed_temps.headD 0)).1 = false) :
    (autotuneStep args c st).sim.kettle =
      (st.sim.kettle.heat
          (args.heater_power *
            (c.output (c.run st.sim.ctrl (st.sim.delayed_temps.headD 0)).2 / args.out_max))
          args.sampletime (98 / 100)).cool args.sampletime args.ambient_temp
        args.heat_loss_factor := by
  rw [autotuneStep_continue args c st h1 h2]
  rfl

/-- Witness for `autotune_power_conversion` at the first scenario auto-tune
step: the applied power divides the output 50 by the configured
`out_max`. -/
theorem autotune_power_conversion_witness :
    (autotuneStep scenarioArgs ctrlConstAT
        { sim := simInit scenarioArgs (), timestamp := 0, done := false }).sim.kettle =
      ((simInit scenarioArgs ()).kettle.heat
          (scenarioArgs.heater_power * (50 / scenarioArgs.out_max))
          scenarioArgs.sampletime (98 / 100)).cool scenarioArgs.sampletime
        scenarioArgs.ambient_temp scenarioArgs.heat_loss_factor :=
  autotune_power_conversion scenarioArgs ctrlConstAT _ rfl rfl

/-- The scenario delay buffer has capacity `round(15 / 5) = 3`. -/
theorem scenario_maxlen : maxlenOf scenarioArgs = 3 := by
  unfold maxlenOf pyRound
  rw [show scenarioArgs.delay / scenarioArgs.sampletime = 3 by norm_num [scenarioArgs],
    show ⌊(3 : ℚ)⌋ = 3 by rw [Int.floor_eq_iff]; norm_num,
    if_neg (by norm_num),
    show round (3 : ℚ) = 3 by
      rw [round_eq, show (3 : ℚ) + 1 / 2 = 7 / 2 by norm_num, Int.floor_eq_iff]; norm_num]
  decide

/-- Each scenario step maps the kettle through `stepKettle` at the constant
clamped output 50 (the clamp `min (max 50 0) 100` evaluates to 50). -/
theorem scenario_kettle_succ (n : ℕ) :
    (pidRun scenarioArgs const50 () (n + 1)).1.kettle =
      stepKettle scenarioArgs (pidRun scenarioArgs const50 () n).1.kettle 50 := by
  rw [pidRun_succ, pidStep_eq]
  simp only [sim_update_kettle]
  congr 1

/-- After the first scenario step the temperature has moved off the initial
40 degrees. -/
theorem scenario_step1_ne :
    (stepKettle scenarioArgs (Kettle.mkRaw 50 70 40 5) 50).temp ≠ 40 := by
  norm_num [stepKettle, Kettle.heat, Kettle.cool, Kettle.get_deltaT, Kettle.mkRaw,
    scenarioArgs, mathPi, DENSITY_WATER, SPECIFIC_HEAT_CAP_WATER, SPECIFIC_HEAT_CAP_BRASS,
    THERMAL_CONDUCTIVITY_KETTLE, THERMAL_CONDUCTIVITY_BRASS]

/-- The scenario temperature after two steps differs from the temperature
after one step. -/
theorem scenario_step2_ne :
    (stepKettle scenarioArgs (stepKettle scenarioArgs (Kettle.mkRaw 50 70 40 5) 50) 50).temp ≠
      (stepKettle scenarioArgs (Kettle.mkRaw 50 70 40 5) 50).temp := by
  norm_num [stepKettle, Kettle.heat, Kettle.cool, Kettle.get_deltaT, Kettle.mkRaw,
    scenarioArgs, mathPi, DENSITY_WATER, SPECIFIC_HEAT_CAP_WATER, SPECIFIC_HEAT_CAP_BRASS,
    THERMAL_CONDUCTIVITY_KETTLE, THERMAL_CONDUCTIVITY_BRASS]

/-- C2 counterexample: in the 12-step end-to-end scenario the third sensor
reading (index 2) is not the initial temperature, and the recorded sensor
temperature at index 3 is not the heater temperature at index 0 — the lag
is not 3 steps. -/
theorem scenario_lag_not_three :
    (pidRun scenarioArgs const50 () 12).1.sensor_temps.getD 2 0 ≠ 40 ∧
    (pidRun scenarioArgs const50 () 12).1.sensor_temps.getD 3 0 ≠
      (pidRun scenarioArgs const50 () 12).1.heater_temps.getD 0 0 := by
  obtain ⟨_, _, _, hsenval, hheatval⟩ := pidRun_invariant scenarioArgs const50 () 12
  have hk0 : (pidRun scenarioArgs const50 () 0).1.kettle = Kettle.mkRaw 50 70 40 5 := rfl
  have hk1 : (pidRun scenarioArgs const50 () 1).1.kettle =
      stepKettle scenarioArgs (Kettle.mkRaw 50 70 40 5) 50 := by
    rw [scenario_kettle_succ, hk0]
  have hk2 : (pidRun scenarioArgs const50 () 2).1.kettle =
      stepKettle scenarioArgs (stepKettle scenarioArgs (Kettle.mkRaw 50 70 40 5) 50) 50 := by
    rw [scenario_kettle_succ, hk1]
  have hs2 : (pidRun scenarioArgs const50 () 12).1.sensor_temps.getD 2 0 =
      (pidRun scenarioArgs const50 () 1).1.kettle.temp := by
    rw [hsenval 2 (by norm_num),
      List.getD_append_right _ _ _ _ (by simp [scenario_maxlen])]
    rw [show 2 + 1 - (List.replicate (maxlenOf scenarioArgs) scenarioArgs.kettle_temp).length
        = 0 by simp [scenario_maxlen]]
    exact hheatval 0 (by norm_num)
  have hs3 : (pidRun scenarioArgs const50 () 12).1.sensor_temps.getD 3 0 =
      (pidRun scenarioArgs const50 () 2).1.kettle.temp := by
    rw [hsenval 3 (by norm_num),
      List.getD_append_right _ _ _ _ (by simp [scenario_maxlen])]
    rw [show 3 + 1 - (List.replicate (maxlenOf scenarioArgs) scenarioArgs.kettle_temp).length
        = 1 by simp [scenario_maxlen]]
    exact hheatval 1 (by norm_num)
  constructor
  · rw [hs2, hk1]
    exact scenario_step1_ne
  · rw [hs3, hheatval 0 (by norm_num), hk2, hk1]
    exact scenario_step2_ne

/-- C2 (amended): in the end-to-end scenario (buffer capacity 3) the
recorded sensor temperatures lag the recorded heater temperatures by
exactly 2 steps — one less than the capacity, because the buffer front is
read after the push: for every recorded index `i ≥ 2`,
`sensor_temps[i] = heater_temps[i-2]`, and the first 2 sensor readings
equal the initial temperature 40. -/
theorem scenario_lag_two (n i : ℕ) (h2 : 2 ≤ i) (hn : i < n) :
    (pidRun scenarioArgs const50 () n).1.sensor_temps.getD i 0 =
      (pidRun scenarioArgs const50 () n).1.heater_temps.getD (i - 2) 0 ∧
    (pidRun scenarioArgs const50 () n).1.sensor_temps.getD 0 0 = 40 ∧
    (pidRun scenarioArgs const50 () n).1.sensor_temps.getD 1 0 = 40 := by
  obtain ⟨_, _, _, hsenval, _⟩ := pidRun_invariant scenarioArgs const50 () n
  refine ⟨?_, ?_, ?_⟩
  · rw [hsenval i hn,
      List.getD_append_right _ _ _ _ (by simp only [List.length_replicate, scenario_maxlen]; omega)]
    congr 1
    simp only [List.length_replicate, scenario_maxlen]
    omega
  · rw [hsenval 0 (by omega),
      List.getD_append _ _ _ _ (by simp [scenario_maxlen]), scenario_maxlen]
    rfl
  · rw [hsenval 1 (by omega),
      List.getD_append _ _ _ _ (by simp [scenario_maxlen]), scenario_maxlen]
    rfl

/-- Witness for `scenario_lag_two`: in the 12-step scenario run the sensor
reading at index 3 equals the heater reading at index 1. -/
theorem scenario_lag_two_witness :
    (pidRun scenarioArgs const50 () 12).1.sensor_temps.getD 3 0 =
      (pidRun scenarioArgs const50 () 12).1.heater_temps.getD 1 0 :=
  (scenario_lag_two 12 3 (by norm_num) (by norm_num)).1

/-- C1 counterexample: with `out_max = 50` and an auto-tune controller
whose output field reads 50, the temperature after the first auto-tune
step differs from the temperature that heating with the claimed power
`heater_power * (output / 100)` would give: the driver divides by
`out_max`, not by a fixed 100. -/
theorem autotune_power_not_percent :
    (autotuneRun atArgs50 ctrlConstAT () 1).sim.kettle.temp ≠
      (((simInit atArgs50 ()).kettle.heat (atArgs50.heater_power * (50 / 100))
          atArgs50.sampletime (98 / 100)).cool atArgs50.sampletime atArgs50.ambient_temp
        atArgs50.heat_loss_factor).temp := by
  have h : (autotuneRun atArgs50 ctrlConstAT () 1).sim.kettle =
      stepKettle atArgs50 (simInit atArgs50 ()).kettle 50 := by
    show (autotuneStep atArgs50 ctrlConstAT (autotuneRun atArgs50 ctrlConstAT () 0)).sim.kettle = _
    rw [autotuneStep_continue atArgs50 ctrlConstAT _ rfl rfl]
    rfl
  rw [h]
  norm_num [stepKettle, simInit, Kettle.heat, Kettle.cool, Kettle.get_deltaT, Kettle.mkRaw,
    atArgs50, scenarioArgs, mathPi, DENSITY_WATER, SPECIFIC_HEAT_CAP_WATER,
    SPECIFIC_HEAT_CAP_BRASS, THERMAL_CONDUCTIVITY_KETTLE, THERMAL_CONDUCTIVITY_BRASS]

/-- C3 counterexample: in auto-tune mode a controller output of 150 with
clamp range [0, 100] is recorded raw, exceeds `out_max`, and the physically
applied update differs from what applying the clamped value 100 would
give — the auto-tune path never clamps. -/
theorem autotune_output_unclamped :
    (autotuneRun scenarioArgs ctrl150 () 1).sim.outputs = [150] ∧
    scenarioArgs.out_max < 150 ∧
    (autotuneRun scenarioArgs ctrl150 () 1).sim.kettle.temp ≠
      (stepKettle scenarioArgs (simInit scenarioArgs ()).kettle
        (min (max 150 scenarioArgs.out_min) scenarioArgs.out_max)).temp := by
  have h : autotuneRun scenarioArgs ctrl150 () 1 =
      { sim := sim_update scenarioArgs (maxlenOf scenarioArgs)
          (simInit scenarioArgs ()) (0 + scenarioArgs.sampletime) 150
        timestamp := 0 + scenarioArgs.sampletime
        done := false } := by
    show autotuneStep scenarioArgs ctrl150 (autotuneRun scenarioArgs ctrl150 () 0) = _
    rw [autotuneStep_continue scenarioArgs ctrl150 _ rfl rfl]
    rfl
  refine ⟨?_, by norm_num [scenarioArgs], ?_⟩
  · rw [h]
    rfl
  · rw [h,
      max_eq_left (by norm_num [scenarioArgs] : scenarioArgs.out_min ≤ (150 : ℚ)),
      min_eq_right (by norm_num [scenarioArgs] : scenarioArgs.out_max ≤ (150 : ℚ))]
    simp only [sim_update_kettle]
    norm_num [stepKettle, simInit, Kettle.heat, Kettle.cool, Kettle.get_deltaT, Kettle.mkRaw,
      scenarioArgs, mathPi, DENSITY_WATER, SPECIFIC_HEAT_CAP_WATER, SPECIFIC_HEAT_CAP_BRASS,
      THERMAL_CONDUCTIVITY_KETTLE, THERMAL_CONDUCTIVITY_BRASS]

end PidSim
